import Mathlib

/-!
Shallow embedding of the comm_service_rep program (src/src/main.rs), a
periodic command-dispatch agent: a worker thread repeatedly performs an
interruptible timed wait on a shared (Mutex<bool>, Condvar) pair and, on
every non-interrupted wake, spawns a detached HTTP POST of a fixed JSON
payload; the main thread blocks on standard input and, when a line arrives,
sets the shared flag under the lock and notifies the condition variable.

Pure data is embedded directly; the interaction of each thread with its
environment (lock acquisition outcomes, condition-variable wake outcomes,
transport outcomes, standard-input outcomes) is embedded by passing the
outcomes in explicitly, so every definition below is executable.
-/

namespace CommService

/-- Configuration produced by the excluded CLI layer (struct MainConfig,
main.rs lines 46-63).  The regex_pattern field is a compiled Regex in the
source, but the core only ever calls to_string on it and forwards it as an
opaque string, so it is modelled by its pattern string.  interval is the
send interval in milliseconds. -/
structure MainConfig where
  name : String
  regex_pattern : String
  cmd : String
  dst_url : String
  interval : Nat
deriving DecidableEq, Repr

/-- Request payload (struct ExecReq, main.rs lines 30-36): three string
fields id, cmd_id_re, cmd, serialized by serde with
rename_all = camelCase. -/
structure ExecReq where
  id : String
  cmd_id_re : String
  cmd : String
deriving DecidableEq, Repr

/-- Constructor generated by derive(new) and used at main.rs line 113. -/
def ExecReq.new (id cmd_id_re cmd : String) : ExecReq :=
  ⟨id, cmd_id_re, cmd⟩

/-! ### serde_json serialization model

The only value this program serializes is ExecReq, a flat struct of string
fields, so the JSON model is restricted to string values inside one object.
-/

/-- A JSON value as produced for one ExecReq field (always a string here). -/
inductive JsonVal where
  | str (s : String)
deriving DecidableEq, Repr

/-- A JSON object as an ordered list of key/value pairs (serde_json emits
struct fields in declaration order). -/
abbrev JsonObj := List (String × JsonVal)

/-- One lowercase hexadecimal digit, as serde_json uses for \u escapes. -/
def hexDigitChar (n : Nat) : Char :=
  if n < 10 then Char.ofNat (48 + n) else Char.ofNat (87 + n)

/-- JSON string escaping as serde_json performs it: the quote and backslash
are escaped, control characters below 0x20 get their short escape when one
exists and a \u00XX escape otherwise, and every other character is emitted
verbatim. -/
def escapeJsonChar (c : Char) : String :=
  if c = Char.ofNat 34 then "\\\""
  else if c = Char.ofNat 92 then "\\\\"
  else if c = Char.ofNat 8 then "\\b"
  else if c = Char.ofNat 9 then "\\t"
  else if c = Char.ofNat 10 then "\\n"
  else if c = Char.ofNat 12 then "\\f"
  else if c = Char.ofNat 13 then "\\r"
  else if c.toNat < 32 then
    "\\u00" ++ String.singleton (hexDigitChar (c.toNat / 16))
      ++ String.singleton (hexDigitChar (c.toNat % 16))
  else String.singleton c

/-- Escape a whole string for inclusion in JSON output. -/
def escapeJsonString (s : String) : String :=
  String.join (s.toList.map escapeJsonChar)

/-- Render a JSON value. -/
def JsonVal.render : JsonVal → String
  | .str s => "\"" ++ escapeJsonString s ++ "\""

/-- Render a JSON object the way serde_json does: compact, fields in order,
no whitespace. -/
def renderObj (o : JsonObj) : String :=
  "\x7b" ++ String.intercalate ","
    (o.map (fun f => "\"" ++ escapeJsonString f.1 ++ "\":" ++ f.2.render))
    ++ "\x7d"

/-- Split a character list at underscores (the segments of a snake_case
identifier). -/
def splitUnderscores : List Char → List (List Char)
  | [] => [[]]
  | c :: cs =>
    match splitUnderscores cs with
    | [] => [[]]
    | w :: ws => if c = Char.ofNat 95 then [] :: w :: ws else (c :: w) :: ws

/-- Uppercase the first character of a segment. -/
def capitalizeSegment : List Char → List Char
  | [] => []
  | c :: cs => c.toUpper :: cs

/-- The rename_all = camelCase rule of serde: a snake_case identifier keeps
its first segment and capitalizes each following segment. -/
def snakeToCamel (s : String) : String :=
  match splitUnderscores s.toList with
  | [] => ""
  | w :: ws =>
    String.mk w ++ String.join (ws.map (fun seg => String.mk (capitalizeSegment seg)))

/-- Serialization of ExecReq derived from its declaration (main.rs lines
30-36): fields in declaration order, names run through the camelCase
rename rule. -/
def ExecReq.toJsonObj (r : ExecReq) : JsonObj :=
  [ (snakeToCamel "id", JsonVal.str r.id),
    (snakeToCamel "cmd_id_re", JsonVal.str r.cmd_id_re),
    (snakeToCamel "cmd", JsonVal.str r.cmd) ]

/-- The payload the worker builds on tick t (main.rs lines 99-113): the
three configuration strings are cloned and passed to ExecReq::new; the tick
index is the iteration count of the loop and is never consulted. -/
def tickPayload (config : MainConfig) (_t : Nat) : ExecReq :=
  ExecReq.new config.name config.regex_pattern config.cmd

/-! ### The worker loop (main.rs lines 73-152)

The worker runs iter::repeat(()).any(closure).  Each iteration calls
match_fn, which locks the mutex, waits on the condition variable with a
timeout, and returns the flag value it observes; the closure then either
spawns a dispatch thread and continues, logs an error and continues, or
stops the iteration.  One iteration is driven by the outcomes the
environment hands the thread: the mutex acquisition outcome and the
condition-variable wait outcome.
-/

/-- Environment of one worker iteration: lockRes is the result of m.lock()
(line 79; an error models a poisoned mutex) and waitRes the result of
cv.wait_timeout (line 84), carrying on success the flag value visible
through the reacquired guard together with the timed-out indicator of the
WaitTimeoutResult. -/
structure WaitEnv where
  lockRes : Except String Unit
  waitRes : Except String (Bool × Bool)
deriving Repr

/-- match_fn (main.rs lines 78-93): bail on a lock failure, bail on a wait
failure, otherwise return the observed flag value; the timed-out indicator
of the wait result is bound to an underscore and discarded (line 84). -/
def match_fn (env : WaitEnv) : Except String Bool :=
  match env.lockRes with
  | .error e => .error ("Unable to get mutex lock in thread: " ++ e)
  | .ok _ =>
    match env.waitRes with
    | .error e => .error ("Unable to wait for condvar timeout: " ++ e)
    | .ok (is_interrupted, _timed_out) => .ok is_interrupted

/-- One iteration of the any-closure (main.rs lines 95-150), as the pair
(dispatch thread spawned this iteration, value returned to any).  Ok false
spawns the HTTP thread and returns false (continue); Err prints the error
and returns false (continue); Ok true returns true (stop). -/
def workerIter : Except String Bool → Bool × Bool
  | .ok false => (true, false)
  | .error _ => (false, false)
  | .ok true => (false, true)

/-- Whether iteration n of the worker loop runs: iter::repeat(()).any runs
iteration n exactly when no earlier iteration returned true to any. -/
def iterRuns (envs : Nat → WaitEnv) : Nat → Bool
  | 0 => true
  | n + 1 => iterRuns envs n && !(workerIter (match_fn (envs n))).2

/-- Whether iteration n runs and spawns a dispatch thread. -/
def dispatchAt (envs : Nat → WaitEnv) (n : Nat) : Bool :=
  iterRuns envs n && (workerIter (match_fn (envs n))).1

/-- A normal tick: lock acquired, wait timed out, flag still false. -/
def tickEnv : WaitEnv := ⟨.ok (), .ok (false, true)⟩

/-- A stop observation: lock acquired, wake with the flag set. -/
def stopEnv : WaitEnv := ⟨.ok (), .ok (true, true)⟩

/-- A coordination failure: the mutex acquisition fails (poisoned lock). -/
def poisonEnv : WaitEnv := ⟨.error "poisoned", .ok (false, true)⟩

/-- Environment sequence whose iteration 0 hits a poisoned mutex and whose
later iterations are normal ticks. -/
def envsAfterError : Nat → WaitEnv :=
  fun n => if n = 0 then poisonEnv else tickEnv

/-- Environment sequence whose iteration 1 observes the stop flag and whose
other iterations are normal ticks. -/
def envsStopAt1 : Nat → WaitEnv :=
  fun n => if n = 1 then stopEnv else tickEnv

/-! ### The per-tick HTTP dispatch (main.rs lines 105-138) -/

/-- HTTP status as the dispatch thread sees it (resp.status()):
is_success holds exactly for the 2xx class.  The source prints the status
with its Debug formatting; that rendering is modelled by the decimal code. -/
structure StatusCode where
  code : Nat
deriving DecidableEq, Repr

/-- The 2xx test used at main.rs line 118. -/
def StatusCode.is_success (s : StatusCode) : Bool :=
  200 ≤ s.code && s.code < 300

/-- Debug rendering of the status, modelled by its decimal code. -/
def StatusCode.debugStr (s : StatusCode) : String :=
  toString s.code

/-- A delivered HTTP response: its status, whether read_to_string on the
body succeeded, and the contents of the body buffer after that best-effort
read (on a read failure the buffer keeps whatever was appended). -/
structure HttpResponse where
  status : StatusCode
  readOk : Bool
  content : String
deriving DecidableEq, Repr

/-- client_fn (main.rs lines 106-132): bail if the HTTP client cannot be
created; on a transport failure bail with the cause; on a delivered
response with a 2xx status, read the body best-effort (the read result is
bound to an underscore at line 120, so a read failure changes nothing) and
return the success message with the buffer contents; on a non-2xx status
bail with the status. -/
def client_fn (clientRes : Except String Unit)
    (sendRes : Except String HttpResponse) : Except String String :=
  match clientRes with
  | .error e => .error ("Error creating HTTP client: " ++ e)
  | .ok _ =>
    match sendRes with
    | .ok resp =>
      if resp.status.is_success then
        .ok ("Success in sending command, body: " ++ resp.content ++ " ")
      else
        .error ("Success in sending command, but returned status code: "
          ++ resp.status.debugStr)
    | .error e => .error ("Failed to send command: " ++ e)

/-! ### The controller (main thread, main.rs lines 154-183)

After spawning the worker, the main thread reads one line from standard
input, and on success acquires the lock, sets the flag to true inside a
scope that releases the lock at its end, then calls notify_one and joins
the child.  The trace of these shared-state events, together with the
returned Result, captures the observable behaviour.
-/

/-- Shared-state events of the controller, in program order. -/
inductive CtrlEvent where
  | readLine
  | lockAcquire
  | setStopTrue
  | lockRelease
  | notifyOne
  | joinChild
  | logJoinError
deriving DecidableEq, Repr

/-- The controller portion of run (main.rs lines 154-183), driven by the
outcome of the stdin read (line 159), of the lock acquisition (line 167)
and of the join (line 179): the event trace it performs and the Result it
returns.  The question-mark operator on the chained read error returns
before any signalling happens; on a lock failure the function bails with
the lock inside the scope still released by unwinding, before any notify;
a join failure is only logged. -/
def controllerRun (readRes : Except String Unit) (lockRes : Except String Unit)
    (joinRes : Except String Unit) : List CtrlEvent × Except String Unit :=
  match readRes with
  | .error _ => ([CtrlEvent.readLine], .error "Unable to read into buffer")
  | .ok _ =>
    match lockRes with
    | .error e => ([CtrlEvent.readLine, CtrlEvent.lockAcquire],
        .error ("Unable to get mutex lock in main thread: " ++ e))
    | .ok _ =>
      match joinRes with
      | .error _ =>
        ([CtrlEvent.readLine, CtrlEvent.lockAcquire, CtrlEvent.setStopTrue,
          CtrlEvent.lockRelease, CtrlEvent.notifyOne, CtrlEvent.joinChild,
          CtrlEvent.logJoinError], .ok ())
      | .ok _ =>
        ([CtrlEvent.readLine, CtrlEvent.lockAcquire, CtrlEvent.setStopTrue,
          CtrlEvent.lockRelease, CtrlEvent.notifyOne, CtrlEvent.joinChild],
          .ok ())

/-! ### The shared stop flag -/

/-- State of the Signal: the boolean behind the mutex (the condition
variable keeps no state a later wait can observe, so it does not appear). -/
structure SignalState where
  stopped : Bool
deriving DecidableEq, Repr

/-- The initial Signal state, Mutex::new(false) at main.rs line 70. -/
def initSignal : SignalState := ⟨false⟩

/-- The stop operation of the controller (main.rs lines 165-176): under the
lock the flag is set to true; the subsequent notify_one does not change the
persistent state. -/
def signalStop (s : SignalState) : SignalState :=
  { s with stopped := true }

/-- Every access any thread of the program makes to the shared flag:
the worker reads it through the guard after cv.wait_timeout (line 89), and
the controller assigns true (line 169).  No other statement of the program
touches the flag; in particular the error paths of both threads perform no
write. -/
inductive FlagOp where
  | workerWait
  | ctrlSetTrue
deriving DecidableEq, Repr

/-- The value, if any, an access writes to the flag. -/
def flagWrite : FlagOp → Option Bool
  | .workerWait => none
  | .ctrlSetTrue => some true

/-- Effect of one access on the flag. -/
def stepFlag (b : Bool) (op : FlagOp) : Bool :=
  match flagWrite op with
  | none => b
  | some v => v

/-- The initial flag value, Mutex::new(false) at main.rs line 70. -/
def initFlag : Bool := false

/-- The wait environments the worker sees once the Signal is in state s and
no thread changes the flag any more: every wait wakes at its timeout and
observes s.stopped. -/
def envsOfState (s : SignalState) : Nat → WaitEnv :=
  fun _ => ⟨.ok (), .ok (s.stopped, true)⟩

/-- The configuration of property P5: name caller, pattern .+, command
echo hi. -/
def exampleConfig : MainConfig :=
  ⟨"caller", ".+", "echo hi", "http://localhost/", 1000⟩

/-! ### Theorems for the claims -/

/-- C1: the claim states that after match_fn reports a coordination failure
the worker loop terminates, with no further iterations and no further
dispatches.  Evaluating the loop on the environment sequence whose
iteration 0 hits a poisoned mutex shows the opposite: the Err arm of the
closure returns false to any, so iteration 1 still runs and spawns a
dispatch.  The code fails open, against the fail-safe shutdown the spec
prescribes. -/
theorem c1_coordination_failure_does_not_stop_loop :
    match_fn (envsAfterError 0) =
      .error "Unable to get mutex lock in thread: poisoned" ∧
    iterRuns envsAfterError 1 = true ∧
    dispatchAt envsAfterError 1 = true :=
  ⟨rfl, by decide, by decide⟩

/-- C2 counterexample: with a failing stdin read the controller performs
only the read event — it neither sets the stop flag nor notifies — and
returns the read error, refuting the claim that it signals stop before
surfacing the failure. -/
theorem c2_counterexample_read_failure_no_signal :
    controllerRun (.error "read failed") (.ok ()) (.ok ()) =
      ([CtrlEvent.readLine], .error "Unable to read into buffer") ∧
    List.count CtrlEvent.setStopTrue
      (controllerRun (.error "read failed") (.ok ()) (.ok ())).1 = 0 ∧
    List.count CtrlEvent.notifyOne
      (controllerRun (.error "read failed") (.ok ()) (.ok ())).1 = 0 :=
  ⟨rfl, by decide, by decide⟩

/-- C2 amended: whenever the read of the stop trigger fails, the controller
surfaces the read failure immediately; its trace is exactly the read event,
so no flag write and no notify occur and the worker is left un-signaled. -/
theorem c2_read_failure_surfaces_without_signaling (e : String)
    (lockRes joinRes : Except String Unit) :
    (controllerRun (.error e) lockRes joinRes).1 = [CtrlEvent.readLine] ∧
    (controllerRun (.error e) lockRes joinRes).2 =
      .error "Unable to read into buffer" :=
  ⟨rfl, rfl⟩

/-- C3: in any iteration whose wait observes the stop flag, the closure
returns true to any without spawning a dispatch, so that iteration
dispatches nothing, no later iteration runs, and no later iteration
dispatches. -/
theorem c3_no_dispatch_after_stop (envs : Nat → WaitEnv) (i : Nat)
    (h : match_fn (envs i) = .ok true) :
    dispatchAt envs i = false ∧
    (∀ j : Nat, iterRuns envs (i + 1 + j) = false) ∧
    (∀ j : Nat, dispatchAt envs (i + 1 + j) = false) := by
  have hrun : ∀ j : Nat, iterRuns envs (i + 1 + j) = false := by
    intro j
    induction j with
    | zero => simp [iterRuns, h, workerIter]
    | succ k ih =>
      have heq : i + 1 + (k + 1) = (i + 1 + k) + 1 := by omega
      rw [heq, iterRuns, ih]
      simp
  refine ⟨by simp [dispatchAt, h, workerIter], hrun, ?_⟩
  intro j
  simp [dispatchAt, hrun j]

/-- Witness for C3 on the concrete run that observes the stop flag at
iteration 1. -/
theorem c3_no_dispatch_after_stop_witness :
    dispatchAt envsStopAt1 1 = false ∧
    iterRuns envsStopAt1 2 = false ∧
    dispatchAt envsStopAt1 2 = false :=
  ⟨(c3_no_dispatch_after_stop envsStopAt1 1 rfl).1,
   (c3_no_dispatch_after_stop envsStopAt1 1 rfl).2.1 0,
   (c3_no_dispatch_after_stop envsStopAt1 1 rfl).2.2 0⟩

/-- C4: for every configuration the serialized tick payload is an object of
exactly the three string fields id, cmdIdRe and cmd, holding the caller
name, the pattern string and the command text; on the configuration of P5
the rendered body is the expected JSON text. -/
theorem c4_payload_serialization :
    (∀ c : MainConfig,
      ExecReq.toJsonObj (ExecReq.new c.name c.regex_pattern c.cmd) =
        [("id", JsonVal.str c.name), ("cmdIdRe", JsonVal.str c.regex_pattern),
         ("cmd", JsonVal.str c.cmd)]) ∧
    renderObj (ExecReq.toJsonObj (ExecReq.new exampleConfig.name
        exampleConfig.regex_pattern exampleConfig.cmd)) =
      "\x7b\"id\":\"caller\",\"cmdIdRe\":\".+\",\"cmd\":\"echo hi\"\x7d" := by
  constructor
  · intro c
    have h1 : snakeToCamel "id" = "id" := by decide
    have h2 : snakeToCamel "cmd_id_re" = "cmdIdRe" := by decide
    have h3 : snakeToCamel "cmd" = "cmd" := by decide
    simp [ExecReq.toJsonObj, ExecReq.new, h1, h2, h3]
  · decide

/-- C5: on the stop path the controller sets the flag exactly once and
notifies exactly once, the lock acquisition precedes the flag write, the
flag write precedes the lock release, and the lock release precedes the
notify — so the write happens before the notification and the lock is not
held during the notify, whatever the join outcome. -/
theorem c5_signal_stop_sequencing (joinRes : Except String Unit) :
    List.count CtrlEvent.setStopTrue
      (controllerRun (.ok ()) (.ok ()) joinRes).1 = 1 ∧
    List.count CtrlEvent.notifyOne
      (controllerRun (.ok ()) (.ok ()) joinRes).1 = 1 ∧
    List.indexOf CtrlEvent.lockAcquire (controllerRun (.ok ()) (.ok ()) joinRes).1 <
      List.indexOf CtrlEvent.setStopTrue (controllerRun (.ok ()) (.ok ()) joinRes).1 ∧
    List.indexOf CtrlEvent.setStopTrue (controllerRun (.ok ()) (.ok ()) joinRes).1 <
      List.indexOf CtrlEvent.lockRelease (controllerRun (.ok ()) (.ok ()) joinRes).1 ∧
    List.indexOf CtrlEvent.lockRelease (controllerRun (.ok ()) (.ok ()) joinRes).1 <
      List.indexOf CtrlEvent.notifyOne (controllerRun (.ok ()) (.ok ()) joinRes).1 := by
  cases joinRes <;> simp only [controllerRun] <;> decide

/-- C6: the shared flag starts false, no access of either thread writes
false, and from a true flag every sequence of accesses leaves it true — the
flag moves at most once, from false to true. -/
theorem c6_flag_monotone :
    initFlag = false ∧
    (∀ op : FlagOp, flagWrite op = none ∨ flagWrite op = some true) ∧
    (∀ ops : List FlagOp, List.foldl stepFlag true ops = true) := by
  refine ⟨rfl, ?_, ?_⟩
  · intro op
    cases op
    · exact Or.inl rfl
    · exact Or.inr rfl
  · intro ops
    induction ops with
    | nil => rfl
    | cons op ops ih => cases op <;> exact ih

/-- C7: a delivered 2xx response is classified as success-with-body whatever
the body read outcome (the read result is discarded), a delivered non-2xx
response is classified as a status failure carrying the status, and a
transport failure is classified as a send failure carrying the cause; the
three cases partition all attempts of a created client. -/
theorem c7_outcome_classification :
    (∀ (st : StatusCode) (rok : Bool) (body : String),
        st.is_success = true →
        client_fn (.ok ()) (.ok ⟨st, rok, body⟩) =
          .ok ("Success in sending command, body: " ++ body ++ " ")) ∧
    (∀ (st : StatusCode) (rok : Bool) (body : String),
        st.is_success = false →
        client_fn (.ok ()) (.ok ⟨st, rok, body⟩) =
          .error ("Success in sending command, but returned status code: "
            ++ st.debugStr)) ∧
    (∀ e : String,
        client_fn (.ok ()) (.error e) =
          .error ("Failed to send command: " ++ e)) := by
  refine ⟨?_, ?_, ?_⟩
  · intro st rok body h
    simp [client_fn, h]
  · intro st rok body h
    simp [client_fn, h]
  · intro e
    rfl

/-- Witness for C7 at a 2xx response whose body read failed, a 500
response, and a refused connection. -/
theorem c7_outcome_classification_witness :
    client_fn (.ok ()) (.ok ⟨⟨200⟩, false, "ok"⟩) =
      .ok ("Success in sending command, body: " ++ "ok" ++ " ") ∧
    client_fn (.ok ()) (.ok ⟨⟨500⟩, true, ""⟩) =
      .error ("Success in sending command, but returned status code: "
        ++ StatusCode.debugStr ⟨500⟩) ∧
    client_fn (.ok ()) (.error "connection refused") =
      .error ("Failed to send command: " ++ "connection refused") :=
  ⟨c7_outcome_classification.1 ⟨200⟩ false "ok" (by decide),
   c7_outcome_classification.2.1 ⟨500⟩ true "" (by decide),
   c7_outcome_classification.2.2 "connection refused"⟩

/-- C8: a second stop leaves the Signal in the exact state of the first,
the dispatch schedule of the worker under the resulting state is therefore
identical, and under a stopped Signal the loop exits at its first wait
with no iteration beyond it. -/
theorem c8_idempotent_stop :
    (∀ s : SignalState, signalStop (signalStop s) = signalStop s) ∧
    (∀ (s : SignalState) (i : Nat),
        dispatchAt (envsOfState (signalStop (signalStop s))) i =
          dispatchAt (envsOfState (signalStop s)) i) ∧
    (∀ s : SignalState, iterRuns (envsOfState (signalStop s)) 1 = false) :=
  ⟨fun _ => rfl, fun _ _ => rfl, fun _ => rfl⟩

/-- C9: match_fn does not depend on the timed-out indicator of the wait
result, and a wake before the timeout with the flag still false yields the
same Ok false as a timeout, so that iteration spawns a dispatch and the
loop continues — a tick can fire early. -/
theorem c9_timed_out_flag_discarded :
    (∀ (lockRes : Except String Unit) (stopped ta tb : Bool),
        match_fn ⟨lockRes, .ok (stopped, ta)⟩ =
          match_fn ⟨lockRes, .ok (stopped, tb)⟩) ∧
    workerIter (match_fn ⟨.ok (), .ok (false, false)⟩) = (true, false) := by
  refine ⟨?_, rfl⟩
  intro lockRes stopped ta tb
  cases lockRes <;> rfl

/-- C10: the tick payload is built from the three configuration strings
alone; the tick index contributes nothing, so every tick of a fixed
configuration produces the same payload and a byte-identical rendered
body. -/
theorem c10_payload_ignores_tick :
    ∀ (c : MainConfig) (ta tb : Nat),
      tickPayload c ta = tickPayload c tb ∧
      tickPayload c ta = ExecReq.new c.name c.regex_pattern c.cmd ∧
      renderObj (ExecReq.toJsonObj (tickPayload c ta)) =
        renderObj (ExecReq.toJsonObj (tickPayload c tb)) :=
  fun _ _ _ => ⟨rfl, rfl, rfl⟩

end CommService
